import Mathlib

/-!
Verification development for the qxgedit MIDI device layer and XG parameter
key types.  The definitions below are shallow embeddings of
`src/XGParam.h` and `src/qxgeditMidiDevice.cpp`; machine integers become
`Nat` (bytes are values below 256, bit masking is explicit), ALSA/Qt
library state becomes explicit record environments, and the
`qxgeditMidiRpn` aggregator (whose implementation file is not part of the
excerpt) is modelled from the specification, as marked in doc comments.
-/

/-- Embedding of `XGParamKey` (XGParam.h, lines 338-374): an address
triple (high, mid, low), each an `unsigned short`. -/
structure XGParamKey where
  high : Nat
  mid : Nat
  low : Nat
deriving DecidableEq

/-- Embedding of `XGParamKey::operator<` (XGParam.h, lines 357-366):
compare `high`, then `mid`, then `low`. -/
def ltXGParamKey (a k : XGParamKey) : Bool :=
  if a.high ≠ k.high then
    decide (a.high < k.high)
  else if a.mid ≠ k.mid then
    decide (a.mid < k.mid)
  else
    decide (a.low < k.low)

/-- Embedding of `XGRpnParamKey` (XGParam.h, lines 481-509): a
(channel, param) pair; `channel` is an `unsigned char`, `param` an
`unsigned short`. -/
structure XGRpnParamKey where
  channel : Nat
  param : Nat
deriving DecidableEq

/-- Embedding of `XGRpnParamKey::operator<` (XGParam.h, lines 496-502),
exactly as written in the source: when the channels differ it compares
the channels, otherwise it compares `m_channel` with `key.param()`. -/
def ltXGRpnParamKey (a k : XGRpnParamKey) : Bool :=
  if a.channel ≠ k.channel then
    decide (a.channel < k.channel)
  else
    decide (a.channel < k.param)

/-!  ## Character-level model of the Qt string operations

Strings are modelled as lists of character codes (`List Nat`): 32 is a
space, 47 is a slash, 58 is a colon, 48-57 are the decimal digits.  The
device-listing and connect-by-name code only uses concatenation,
`QString::number`, and `QString::section` with the default flags; those
are embedded below.
-/

/-- Decimal rendering helper for `QString::number`: fuel-driven so that it
is structurally recursive.  `numCharsAux fuel m` renders the digits of
`m`, most significant first, provided `fuel` bounds the recursion. -/
def numCharsAux : Nat → Nat → List Nat
  | 0, _ => []
  | fuel + 1, m =>
    if m = 0 then [] else numCharsAux fuel (m / 10) ++ [48 + m % 10]

/-- Model of `QString::number` on a non-negative integer: the decimal
digit characters of `n` (just `[48]`, i.e. "0", when `n = 0`). -/
def numChars (n : Nat) : List Nat :=
  if n = 0 then [48] else numCharsAux n n

/-- `beginsWith p s` holds when the list `p` is an initial segment of
`s` (the prefix test used by the separator search of
`QString::section`). -/
def beginsWith : List Nat → List Nat → Bool
  | [], _ => true
  | _ :: _, [] => false
  | a :: as, b :: bs => if a = b then beginsWith as bs else false

/-- Splitting on a non-empty separator `c :: cs`, leftmost match first,
keeping empty sections — the section decomposition performed by
`QString::section` with default flags. -/
def splitOnNE (c : Nat) (cs : List Nat) : List Nat → List (List Nat)
  | [] => [[]]
  | x :: xs =>
    if x = c ∧ beginsWith cs xs = true then
      [] :: splitOnNE c cs (xs.drop cs.length)
    else
      match splitOnNE c cs xs with
      | [] => [[x]]
      | g :: gs => (x :: g) :: gs
termination_by s => s.length
decreasing_by
  · simp only [List.length_cons, List.length_drop]
    omega
  · simp only [List.length_cons]
    omega

/-- Model of `s.section(sep, i, i)` for a non-empty separator `c :: cs`
with the default section flags: the `i`-th section, empty when there are
fewer than `i + 1` sections. -/
def sectionOf (c : Nat) (cs : List Nat) (s : List Nat) (i : Nat) : List Nat :=
  (splitOnNE c cs s).getD i []

/-!  ## ALSA device listing and connection (qxgeditMidiDevice.cpp)

The ALSA sequencer is an external collaborator; its client/port tables
are modelled as an explicit environment record.  `deviceList` and
`connectDeviceList` below embed
`qxgeditMidiDevice::Impl::deviceList` (lines 625-690) and
`qxgeditMidiDevice::Impl::connectDeviceList` (lines 694-807).
-/

/-- ALSA port capability bits (alsa/asoundlib.h). -/
def SND_SEQ_PORT_CAP_READ : Nat := 1

def SND_SEQ_PORT_CAP_WRITE : Nat := 2

def SND_SEQ_PORT_CAP_SUBS_READ : Nat := 32

def SND_SEQ_PORT_CAP_SUBS_WRITE : Nat := 64

def SND_SEQ_PORT_CAP_NO_EXPORT : Nat := 128

/-- One ALSA port as reported by `snd_seq_query_next_port`. -/
structure AlsaPortInfo where
  port : Nat
  name : List Nat
  capability : Nat
deriving DecidableEq

/-- One ALSA client as reported by `snd_seq_query_next_client`, with its
ports in query order. -/
structure AlsaClientInfo where
  client : Int
  name : List Nat
  ports : List AlsaPortInfo
deriving DecidableEq

/-- The ALSA sequencer environment visible to the device object:
whether `snd_seq_open` succeeded, our own client/port ids, the client
table in query order, and the outcome of `snd_seq_subscribe_port` for
each (client, port) pair (0 return modelled as `true`). -/
structure AlsaEnv where
  seqOpen : Bool
  selfClient : Int
  selfPort : Int
  clients : List AlsaClientInfo
  subscribeOk : Int → Nat → Bool

/-- List concatenation of the images of `f`, mirroring the nested ALSA
client/port query loops. -/
def catMap (f : α → List β) : List α → List β
  | [] => []
  | x :: xs => f x ++ catMap f xs

/-- `uiPortFlags` as computed in both `deviceList` (lines 634-638) and
`connectDeviceList` (lines 718-722). -/
def portFlags (bReadable : Bool) : Nat :=
  if bReadable then SND_SEQ_PORT_CAP_READ ||| SND_SEQ_PORT_CAP_SUBS_READ
  else SND_SEQ_PORT_CAP_WRITE ||| SND_SEQ_PORT_CAP_SUBS_WRITE

/-- The port-capability filter shared by `deviceList` (lines 655-656)
and `connectDeviceList` (lines 733-734). -/
def eligiblePort (flags : Nat) (p : AlsaPortInfo) : Bool :=
  decide (p.capability &&& flags = flags)
    && decide (p.capability &&& SND_SEQ_PORT_CAP_NO_EXPORT = 0)

/-- The client filter `iAlsaClient > 0 && iAlsaClient != m_iAlsaClient`
shared by both loops (lines 649 and 726). -/
def goodClient (env : AlsaEnv) (c : AlsaClientInfo) : Bool :=
  decide (0 < c.client) && decide (c.client ≠ env.selfClient)

/-- The item separator `c_pszItemSep = " / "` (line 623), as character
codes. -/
def itemSepTail : List Nat := [47, 32]

def itemSep : List Nat := 32 :: itemSepTail

/-- The client half of a listing item: `QString::number(iAlsaClient) +
':' + client-name` (lines 658-659). -/
def clientField (c : AlsaClientInfo) : List Nat :=
  numChars c.client.toNat ++ 58 :: c.name

/-- The port half of a listing item: `QString::number(iAlsaPort) + ':' +
port-name` (lines 661-662). -/
def portField (p : AlsaPortInfo) : List Nat :=
  numChars p.port ++ 58 :: p.name

/-- A full listing item, built exactly as `deviceList` does (lines
658-663): client part, then `" / "`, then port part. -/
def deviceItem (c : AlsaClientInfo) (p : AlsaPortInfo) : List Nat :=
  clientField c ++ itemSep ++ portField p

/-- Embedding of `qxgeditMidiDevice::Impl::deviceList` (ALSA branch,
lines 625-690): for every non-self client with positive id, every
exported port carrying the requested capabilities yields one item. -/
def deviceList (env : AlsaEnv) (bReadable : Bool) : List (List Nat) :=
  if env.seqOpen then
    catMap
      (fun c => (c.ports.filter (eligiblePort (portFlags bReadable))).map (deviceItem c))
      (env.clients.filter (goodClient env))
  else []

/-- The name comparison performed per list entry by `connectDeviceList`
(lines 737-747): split the entry on `" / "`, take the client part
(section 0) and port part (section 1), then compare the given names with
the text after the first `':'` of each part. -/
def itemMatches (cname pname item : List Nat) : Bool :=
  decide (cname = sectionOf 58 [] (sectionOf 32 itemSepTail item 0) 1)
    && decide (pname = sectionOf 58 [] (sectionOf 32 itemSepTail item 1) 1)

/-- The sequence of `snd_seq_subscribe_port` attempts made by
`connectDeviceList` (lines 724-769): one per matching entry of the
request list, for every eligible port of every eligible client, in loop
order. -/
def connectAttempts (env : AlsaEnv) (bReadable : Bool)
    (list : List (List Nat)) : List (Int × Nat) :=
  catMap
    (fun c =>
      catMap
        (fun p =>
          (list.filter (fun item => itemMatches c.name p.name item)).map
            (fun _ => (c.client, p.port)))
        (c.ports.filter (eligiblePort (portFlags bReadable))))
    (env.clients.filter (goodClient env))

/-- Embedding of `qxgeditMidiDevice::Impl::connectDeviceList` (ALSA
branch, lines 694-807).  Returns the boolean result `iConnects > 0`
together with the list of subscription attempts that were made (empty
list: return `false` at once, line 697; sequencer not open: return
`false`, line 704). -/
def connectDeviceList (env : AlsaEnv) (bReadable : Bool)
    (list : List (List Nat)) : Bool × List (Int × Nat) :=
  if list.isEmpty then (false, [])
  else if env.seqOpen then
    let att := connectAttempts env bReadable list
    (decide (0 < (att.filter (fun a => env.subscribeOk a.1 a.2)).length), att)
  else (false, [])

/-- `qxgeditMidiDevice::Impl::connectInputs` (line 87). -/
def connectInputs (env : AlsaEnv) (list : List (List Nat)) : Bool × List (Int × Nat) :=
  connectDeviceList env true list

/-- `qxgeditMidiDevice::Impl::connectOutputs` (line 89). -/
def connectOutputs (env : AlsaEnv) (list : List (List Nat)) : Bool × List (Int × Nat) :=
  connectDeviceList env false list

/-!  ## The RPN/NRPN aggregator and the capture paths

The `qxgeditMidiRpn` implementation file is outside the excerpt; its
event record and per-channel state machine are modelled from the
specification (spec section 4.4), keeping the status-byte type codes
documented in `InputRpn::dequeue` (qxgeditMidiDevice.cpp, lines
175-187).  Everything from `InputRpn`, the input thread, and the two
`capture` methods is embedded from the source.
-/

/-- Status type codes of `qxgeditMidiRpn::Type`, as documented in the
source comments (lines 176-186): CC = 0x10, RPN = 0x20, NRPN = 0x30,
CC14 = 0x40. -/
def RPN_CC : Nat := 0x10

def RPN_RPN : Nat := 0x20

def RPN_NRPN : Nat := 0x30

def RPN_CC14 : Nat := 0x40

/-- Modelled from the spec: `qxgeditMidiRpn::Event` (the record used by
both capture paths of qxgeditMidiDevice.cpp); fields per its use at
lines 151-157 and 540-546: time, port, status (type nibble ||| channel),
14-bit param and value. -/
structure RpnEvent where
  time : Nat
  port : Nat
  status : Nat
  param : Nat
  value : Nat
deriving DecidableEq

/-- Modelled from the spec: whether the in-progress aggregation on a
channel is RPN or NRPN (spec section 3, RpnAggregator state). -/
inductive RpnRunKind where
  | rpn : RpnRunKind
  | nrpn : RpnRunKind
deriving DecidableEq

/-- Modelled from the spec: per-channel aggregation state — which of
param-number MSB/LSB and data MSB have arrived, whether the run is
RPN or NRPN, and the port/time of the initiating event (preserved
through aggregation, as `InputRpn::process`/`dequeue` store and restore
them). -/
structure RpnChanState where
  kind : RpnRunKind
  pmsb : Option Nat
  plsb : Option Nat
  dmsb : Option Nat
  port : Nat
  time : Nat
deriving DecidableEq

/-- Modelled from the spec: the aggregator state — in-progress
per-channel entries plus the queue of completed-but-undelivered events
(`isPending()`/`dequeue()`). -/
structure RpnState where
  chans : List (Nat × RpnChanState)
  queue : List RpnEvent
deriving DecidableEq

/-- The empty aggregator state (a freshly constructed `qxgeditMidiRpn`). -/
def rpnState0 : RpnState := { chans := [], queue := [] }

/-- Look up the in-progress state of a channel. -/
def rpnLookupChan (l : List (Nat × RpnChanState)) (ch : Nat) : Option RpnChanState :=
  (l.find? (fun p => p.1 == ch)).map Prod.snd

/-- Remove a channel's in-progress state. -/
def rpnEraseChan (l : List (Nat × RpnChanState)) (ch : Nat) : List (Nat × RpnChanState) :=
  l.filter (fun p => p.1 != ch)

/-- Replace a channel's in-progress state. -/
def rpnSetChan (l : List (Nat × RpnChanState)) (ch : Nat) (st : RpnChanState) :
    List (Nat × RpnChanState) :=
  (ch, st) :: rpnEraseChan l ch

/-- The status type code of a completed run. -/
def rpnKindCode : RpnRunKind → Nat
  | RpnRunKind.rpn => RPN_RPN
  | RpnRunKind.nrpn => RPN_NRPN

/-- Modelled from the spec: the atomic event emitted on completion —
`{channel, kind, param-number, value}` (spec section 4.4); the channel
is carried in the low 4 bits of the status byte, the kind in its type
nibble, param and value packed from their 7-bit MSB/LSB halves.  `none`
when the mandatory parts have not all arrived (completion then being
impossible, the partial state is discarded on flush). -/
def rpnCompletedEvent (ch : Nat) (st : RpnChanState) (dlsb : Option Nat) :
    Option RpnEvent :=
  match st.pmsb, st.plsb, st.dmsb with
  | some pm, some pl, some dm =>
    some { time := st.time, port := st.port,
           status := rpnKindCode st.kind ||| (ch &&& 0x0f),
           param := pm * 128 + pl, value := dm * 128 + dlsb.getD 0 }
  | _, _, _ => none

/-- Modelled from the spec: `qxgeditMidiRpn::flush()` — force
completion-or-discard of all partial per-channel state (spec section
4.4): runs that completed on a data MSB alone are enqueued (1-byte
resolution), everything else is discarded; no in-progress state
remains. -/
def rpnFlush (s : RpnState) : RpnState :=
  { chans := [],
    queue := s.queue ++ s.chans.filterMap (fun p => rpnCompletedEvent p.1 p.2 none) }

/-- Modelled from the spec: `qxgeditMidiRpn::process(event)` — the
per-channel state machine of spec section 4.4.  Controllers 99/98 are
the NRPN param MSB/LSB, 101/100 the RPN param MSB/LSB, 6 the data MSB,
38 the data LSB which completes immediately; a consumed event returns
`true`, any event of interest to nobody flushes the aggregation and
returns `false` so the caller passes it through. -/
def rpnProcess (s : RpnState) (e : RpnEvent) : Bool × RpnState :=
  if e.status &&& 0x70 ≠ RPN_CC then (false, rpnFlush s)
  else
    let ch := e.status &&& 0x0f
    let old := rpnLookupChan s.chans ch
    if e.param = 99 ∨ e.param = 101 then
      let k := if e.param = 99 then RpnRunKind.nrpn else RpnRunKind.rpn
      let keepLsb :=
        match old with
        | some st => if st.kind = k then st.plsb else none
        | none => none
      let st : RpnChanState :=
        { kind := k, pmsb := some e.value, plsb := keepLsb, dmsb := none,
          port := e.port, time := e.time }
      (true, { s with chans := rpnSetChan s.chans ch st })
    else if e.param = 98 ∨ e.param = 100 then
      let k := if e.param = 98 then RpnRunKind.nrpn else RpnRunKind.rpn
      let keepMsb :=
        match old with
        | some st => if st.kind = k then st.pmsb else none
        | none => none
      let st : RpnChanState :=
        { kind := k, pmsb := keepMsb, plsb := some e.value, dmsb := none,
          port := e.port, time := e.time }
      (true, { s with chans := rpnSetChan s.chans ch st })
    else if e.param = 6 then
      match old with
      | some st =>
        (true, { s with chans := rpnSetChan s.chans ch { st with dmsb := some e.value } })
      | none => (false, rpnFlush s)
    else if e.param = 38 then
      match old with
      | some st =>
        match rpnCompletedEvent ch st (some e.value) with
        | some ev =>
          (true, { chans := rpnEraseChan s.chans ch, queue := s.queue ++ [ev] })
        | none => (false, rpnFlush s)
      | none => (false, rpnFlush s)
    else (false, rpnFlush s)

/-- Consumer-visible notifications of the device
(`emitReceiveRpn` / `emitReceiveNrpn` / `emitReceiveSysex`). -/
inductive MidiNotice where
  | receivedRpn (channel param value : Nat) : MidiNotice
  | receivedNrpn (channel param value : Nat) : MidiNotice
  | receivedSysex (bytes : List Nat) : MidiNotice
deriving DecidableEq

/-- ALSA sequencer event types used by the capture path. -/
inductive SndSeqEvType where
  | controller : SndSeqEvType
  | regparam : SndSeqEvType
  | nonregparam : SndSeqEvType
  | control14 : SndSeqEvType
  | sysex : SndSeqEvType
  | other (code : Nat) : SndSeqEvType
deriving DecidableEq

/-- An ALSA sequencer event (`snd_seq_event_t`), keeping the fields the
capture path reads: type, destination port, control data, SysEx payload
and tick time. -/
structure SndSeqEvent where
  evtype : SndSeqEvType
  destPort : Nat
  channel : Nat
  param : Nat
  value : Nat
  ext : List Nat
  tick : Nat
deriving DecidableEq

/-- A Control-Change sequencer event addressed to port 0 — the shape a
connected sender delivers to the input thread. -/
def ccEvent (ch ctl val : Nat) : SndSeqEvent :=
  { evtype := SndSeqEvType.controller, destPort := 0, channel := ch,
    param := ctl, value := val, ext := [], tick := 0 }

/-- Embedding of `InputRpn::process` (qxgeditMidiDevice.cpp, lines
144-160): a non-controller event flushes the aggregation and is not
consumed; a controller event is handed to the aggregator with status
`CC | (channel & 0x0f)`. -/
def inputRpnProcess (s : RpnState) (ev : SndSeqEvent) : Bool × RpnState :=
  if ev.evtype = SndSeqEvType.controller then
    rpnProcess s
      { time := ev.tick, port := ev.destPort,
        status := RPN_CC ||| (ev.channel &&& 0x0f),
        param := ev.param, value := ev.value }
  else (false, rpnFlush s)

/-- Embedding of the event translation in `InputRpn::dequeue` (lines
163-197): map the status type nibble back to an ALSA event type (or
`none` for an unknown nibble, in which case `dequeue` returns `false`),
restore port and tick, and set `channel = status & 0x0f`. -/
def inputRpnDequeueEvent (e : RpnEvent) : Option SndSeqEvent :=
  let ty :=
    if e.status &&& 0x70 = RPN_CC then some SndSeqEvType.controller
    else if e.status &&& 0x70 = RPN_RPN then some SndSeqEvType.regparam
    else if e.status &&& 0x70 = RPN_NRPN then some SndSeqEvType.nonregparam
    else if e.status &&& 0x70 = RPN_CC14 then some SndSeqEvType.control14
    else none
  ty.map (fun t =>
    { evtype := t, destPort := e.port, channel := e.status &&& 0x0f,
      param := e.param, value := e.value, ext := [], tick := e.time })

/-- Embedding of `qxgeditMidiDevice::Impl::capture(snd_seq_event_t*)`
(lines 445-492): events not addressed to our own port are dropped
(line 448); RPN/NRPN/SysEx events become consumer notifications,
anything else falls through silently. -/
def captureAlsa (alsaPort : Int) (ev : SndSeqEvent) : List MidiNotice :=
  if (ev.destPort : Int) ≠ alsaPort then []
  else
    match ev.evtype with
    | SndSeqEvType.regparam => [MidiNotice.receivedRpn ev.channel ev.param ev.value]
    | SndSeqEvType.nonregparam => [MidiNotice.receivedNrpn ev.channel ev.param ev.value]
    | SndSeqEvType.sysex => [MidiNotice.receivedSysex ev.ext]
    | _ => []

/-- The pending-event drain at the bottom of `InputThread::run` (lines
256-260): dequeue every queued aggregator event and `capture` those that
translate. -/
def drainAlsaGo (alsaPort : Int) : List RpnEvent → List MidiNotice
  | [] => []
  | e :: rest =>
    (match inputRpnDequeueEvent e with
     | some ev => captureAlsa alsaPort ev
     | none => []) ++ drainAlsaGo alsaPort rest

/-- The drain loop as a state transformer: the queue is emptied and the
translated events are captured. -/
def drainPendingAlsa (alsaPort : Int) (s : RpnState) : RpnState × List MidiNotice :=
  ({ s with queue := [] }, drainAlsaGo alsaPort s.queue)

/-- The inner event loop of `InputThread::run` (lines 245-254): each
event is offered to the aggregator; an unconsumed event is passed
through to `capture` unmodified. -/
def processAlsaEvents (alsaPort : Int) (s : RpnState) :
    List SndSeqEvent → RpnState × List MidiNotice
  | [] => (s, [])
  | ev :: rest =>
    let r := inputRpnProcess s ev
    let ns := if r.1 then [] else captureAlsa alsaPort ev
    let rest' := processAlsaEvents alsaPort r.2 rest
    (rest'.1, ns ++ rest'.2)

/-- One cycle of the `InputThread::run` polling loop (lines 239-261):
`none` is a poll timeout (line 243: `iPoll == 0`), flushing the
aggregator; `some evs` is a batch of input events.  Both end with the
pending-event drain. -/
def threadCycle (alsaPort : Int) (s : RpnState) (cycle : Option (List SndSeqEvent)) :
    RpnState × List MidiNotice :=
  match cycle with
  | none => drainPendingAlsa alsaPort (rpnFlush s)
  | some evs =>
    let r := processAlsaEvents alsaPort s evs
    let d := drainPendingAlsa alsaPort r.1
    (d.1, r.2 ++ d.2)

/-- The per-event notice translation of the RtMidi dequeue loop
(lines 550-564), exactly as the source computes it: the "channel" is
`event.status & 0xf0` (the status type nibble), the event kind is
`event.status & 0x70`; CC/CC14 and unknown kinds fall through. -/
def drainRtGo : List RpnEvent → List MidiNotice
  | [] => []
  | e :: rest =>
    (if e.status &&& 0x70 = RPN_RPN then
      [MidiNotice.receivedRpn (e.status &&& 0xf0) e.param e.value]
    else if e.status &&& 0x70 = RPN_NRPN then
      [MidiNotice.receivedNrpn (e.status &&& 0xf0) e.param e.value]
    else []) ++ drainRtGo rest

/-- Embedding of `qxgeditMidiDevice::Impl::capture(const QByteArray&)`
(lines 512-566): messages shorter than 3 bytes return at once; SysEx is
delivered and flushes the aggregator; Control-Change messages feed the
aggregator; every other message only drains the queue of completed
events. -/
def captureRt (s : RpnState) (midi : List Nat) : RpnState × List MidiNotice :=
  if midi.length < 3 then (s, [])
  else
    let status := midi.headD 0 &&& 0xf0
    if status = 0xf0 then (rpnFlush s, [MidiNotice.receivedSysex midi])
    else if status = 0xb0 then
      let e : RpnEvent :=
        { time := 0, port := 0,
          status := RPN_CC ||| (midi.headD 0 &&& 0x0f),
          param := midi.getD 1 0 &&& 0x7f, value := midi.getD 2 0 &&& 0x7f }
      ((rpnProcess s e).2, [])
    else ({ s with queue := [] }, drainRtGo s.queue)

/-- Run the RtMidi capture over a sequence of assembled messages,
collecting the notifications in order. -/
def runRt (s : RpnState) : List (List Nat) → RpnState × List MidiNotice
  | [] => (s, [])
  | m :: ms =>
    let r := captureRt s m
    let rest := runRt r.1 ms
    (rest.1, r.2 ++ rest.2)

/-- Embedding of `qxgeditMidiDevice_midiIn_callback` (lines 283-317):
walk the raw byte vector, accumulating bytes whose status nibble is
0xf0, forwarding 2-byte messages for status 0xc0/0xd0 and 3-byte
messages otherwise; a truncated message breaks out of the loop.  The
result is the list of `capture` arguments, in order. -/
def midiInAssemble : List Nat → List Nat → List (List Nat)
  | [], _ => []
  | ch :: rest, acc =>
    if ch &&& 0xf0 = 0xf0 then midiInAssemble rest (acc ++ [ch])
    else if ch &&& 0xf0 = 0xf7 then (acc ++ [ch]) :: midiInAssemble rest []
    else
      match rest with
      | [] => []
      | b :: rest2 =>
        if ch &&& 0xf0 = 0xc0 ∨ ch &&& 0xf0 = 0xd0 then
          (acc ++ [ch, b]) :: midiInAssemble rest2 []
        else
          match rest2 with
          | [] => []
          | c2 :: rest3 => (acc ++ [ch, b, c2]) :: midiInAssemble rest3 []

/-!  ## The ParamMap key-parameter observer (XGParam.h, lines 442-458)

`XGParamMap::Observer` is the private observer a map attaches to its key
parameter.  Its two callbacks are one-liners in the header:
`reset() { m_map->notify_reset(); }` and `update() { reset(); }`.
`XGParamMap::notify_reset` itself is declared in the header only, so it
is kept abstract as a state transformer over the owning map. -/

/-- `XGParamMap::Observer::reset` (line 451): invoke the owning map's
`notify_reset`. -/
def observerReset {α : Type} (notifyReset : α → α) (m : α) : α :=
  notifyReset m

/-- `XGParamMap::Observer::update` (line 453): defined as a call to the
observer's own `reset`. -/
def observerUpdate {α : Type} (notifyReset : α → α) (m : α) : α :=
  observerReset notifyReset m

/-!  ## Helper lemmas -/

theorem mem_catMap {f : α → List β} {l : List α} {x : β} :
    x ∈ catMap f l ↔ ∃ a, a ∈ l ∧ x ∈ f a := by
  induction l with
  | nil => simp [catMap]
  | cons y ys ih =>
    simp [catMap, List.mem_append, ih]

theorem numCharsAux_mem :
    ∀ (fuel m x : Nat), x ∈ numCharsAux fuel m → 48 ≤ x ∧ x ≤ 57 := by
  intro fuel
  induction fuel with
  | zero => intro m x h; simp [numCharsAux] at h
  | succ n ih =>
    intro m x h
    simp only [numCharsAux] at h
    by_cases hm : m = 0
    · simp [hm] at h
    · simp only [hm, if_false, List.mem_append, List.mem_singleton] at h
      rcases h with h | h
      · exact ih (m / 10) x h
      · subst h
        have : m % 10 < 10 := Nat.mod_lt _ (by omega)
        omega

theorem numChars_mem {n x : Nat} (h : x ∈ numChars n) : 48 ≤ x ∧ x ≤ 57 := by
  unfold numChars at h
  by_cases hn : n = 0
  · simp [hn] at h
    omega
  · simp only [hn, if_false] at h
    exact numCharsAux_mem n n x h

theorem beginsWith_append (p t : List Nat) : beginsWith p (p ++ t) = true := by
  induction p with
  | nil => simp [beginsWith]
  | cons a as ih => simp [beginsWith, ih]

theorem splitOnNE_ne_nil (c : Nat) (cs s : List Nat) : splitOnNE c cs s ≠ [] := by
  cases s with
  | nil => simp [splitOnNE]
  | cons x xs =>
    rw [splitOnNE]
    split
    · simp
    · split <;> simp

theorem splitOnNE_all_ne (c : Nat) (cs : List Nat) :
    ∀ (s : List Nat), (∀ x ∈ s, x ≠ c) → splitOnNE c cs s = [s] := by
  intro s
  induction s with
  | nil => intro _; simp [splitOnNE]
  | cons x xs ih =>
    intro h
    rw [splitOnNE]
    have hx : x ≠ c := h x (List.mem_cons_self _ _)
    have hcond : ¬(x = c ∧ beginsWith cs xs = true) := by
      rintro ⟨rfl, _⟩; exact hx rfl
    rw [if_neg hcond, ih (fun y hy => h y (List.mem_cons_of_mem _ hy))]

theorem splitOnNE_junction (c : Nat) (cs : List Nat) :
    ∀ (a b : List Nat), (∀ x ∈ a, x ≠ c) →
      splitOnNE c cs (a ++ c :: (cs ++ b)) = a :: splitOnNE c cs b := by
  intro a
  induction a with
  | nil =>
    intro b _
    simp only [List.nil_append]
    rw [splitOnNE]
    rw [if_pos ⟨rfl, beginsWith_append cs b⟩]
    rw [List.drop_left]
  | cons x a' ih =>
    intro b h
    have hx : x ≠ c := h x (List.mem_cons_self _ _)
    have hrec := ih b (fun y hy => h y (List.mem_cons_of_mem _ hy))
    simp only [List.cons_append]
    rw [splitOnNE]
    have hcond : ¬(x = c ∧ beginsWith cs (a' ++ c :: (cs ++ b)) = true) := by
      rintro ⟨rfl, _⟩; exact hx rfl
    rw [if_neg hcond, hrec]

theorem clientField_ne_sep {c : AlsaClientInfo}
    (hc : ∀ x ∈ c.name, x ≠ 32) : ∀ x ∈ clientField c, x ≠ 32 := by
  intro x hx
  simp only [clientField, List.mem_append, List.mem_cons] at hx
  rcases hx with hx | hx | hx
  · have := numChars_mem hx; omega
  · omega
  · exact hc x hx

theorem portField_ne_sep {p : AlsaPortInfo}
    (hp : ∀ x ∈ p.name, x ≠ 32) : ∀ x ∈ portField p, x ≠ 32 := by
  intro x hx
  simp only [portField, List.mem_append, List.mem_cons] at hx
  rcases hx with hx | hx | hx
  · have := numChars_mem hx; omega
  · omega
  · exact hp x hx

theorem sectionOf_deviceItem (c : AlsaClientInfo) (p : AlsaPortInfo)
    (hc : ∀ x ∈ c.name, x ≠ 32) (hp : ∀ x ∈ p.name, x ≠ 32) :
    sectionOf 32 itemSepTail (deviceItem c p) 0 = clientField c ∧
      sectionOf 32 itemSepTail (deviceItem c p) 1 = portField p := by
  have hsplit :
      splitOnNE 32 itemSepTail (deviceItem c p)
        = clientField c :: splitOnNE 32 itemSepTail (portField p) := by
    have := splitOnNE_junction 32 itemSepTail (clientField c) (portField p)
      (clientField_ne_sep hc)
    simpa [deviceItem, itemSep, List.append_assoc] using this
  have hport : splitOnNE 32 itemSepTail (portField p) = [portField p] :=
    splitOnNE_all_ne 32 itemSepTail (portField p) (portField_ne_sep hp)
  constructor
  · simp [sectionOf, hsplit]
  · simp [sectionOf, hsplit, hport]

theorem sectionOf_colon_field (n : Nat) (name : List Nat)
    (h : ∀ x ∈ name, x ≠ 58) :
    sectionOf 58 [] (numChars n ++ 58 :: name) 1 = name := by
  have hdig : ∀ x ∈ numChars n, x ≠ 58 := by
    intro x hx
    have := numChars_mem hx; omega
  have := splitOnNE_junction 58 [] (numChars n) name hdig
  simp only [List.nil_append] at this
  have hname : splitOnNE 58 [] name = [name] := splitOnNE_all_ne 58 [] name h
  simp [sectionOf, this, hname]

theorem itemMatches_deviceItem (c : AlsaClientInfo) (p : AlsaPortInfo)
    (hc : ∀ x ∈ c.name, x ≠ 32 ∧ x ≠ 47 ∧ x ≠ 58)
    (hp : ∀ x ∈ p.name, x ≠ 32 ∧ x ≠ 47 ∧ x ≠ 58) :
    itemMatches c.name p.name (deviceItem c p) = true := by
  have hc32 : ∀ x ∈ c.name, x ≠ 32 := fun x hx => (hc x hx).1
  have hp32 : ∀ x ∈ p.name, x ≠ 32 := fun x hx => (hp x hx).1
  have hsec := sectionOf_deviceItem c p hc32 hp32
  have hcn : sectionOf 58 [] (clientField c) 1 = c.name :=
    sectionOf_colon_field _ _ (fun x hx => (hc x hx).2.2)
  have hpn : sectionOf 58 [] (portField p) 1 = p.name :=
    sectionOf_colon_field _ _ (fun x hx => (hp x hx).2.2)
  simp [itemMatches, hsec.1, hsec.2, hcn, hpn]

/-!  ## Claim theorems -/

/-- C4: `XGParamKey::operator<` is the lexicographic strict total order
on (high, mid, low) address triples: `a < b` holds iff `a.high < b.high`,
or the highs are equal and `a.mid < b.mid`, or highs and mids are equal
and `a.low < b.low`; in particular `a < b` and `b < a` never both
hold. -/
theorem c4_xgparamkey_lexicographic :
    ∀ a b : XGParamKey,
      (ltXGParamKey a b = true ↔
        (a.high < b.high ∨
          (a.high = b.high ∧
            (a.mid < b.mid ∨ (a.mid = b.mid ∧ a.low < b.low))))) ∧
      ((ltXGParamKey a b && ltXGParamKey b a) = false) := by
  intro a b
  obtain ⟨ah, am, al⟩ := a
  obtain ⟨bh, bm, bl⟩ := b
  constructor
  · simp only [ltXGParamKey]
    split_ifs <;> simp only [decide_eq_true_eq] <;> omega
  · simp only [ltXGParamKey]
    split_ifs <;> simp only [Bool.and_eq_false_iff, decide_eq_false_iff_not] <;> omega

/-- C2: the claim states `XGRpnParamKey::operator<` is a strict total
order with `a < b` iff `a.channel < b.channel`, or equal channels and
`a.param < b.param`.  The code instead compares `m_channel <
key.param()` when the channels are equal (XGParam.h line 501), so for
a = (channel 3, param 5) and b = (channel 3, param 4) both `a < b` and
`b < a` evaluate to true — not a strict order at all, and unequal to the
claimed formula, which gives false for `a < b`. -/
theorem c2_rpn_key_comparator_bug :
    ltXGRpnParamKey ⟨3, 5⟩ ⟨3, 4⟩ = true ∧
      ltXGRpnParamKey ⟨3, 4⟩ ⟨3, 5⟩ = true ∧
      ¬((3 : Nat) < 3 ∨ ((3 : Nat) = 3 ∧ (5 : Nat) < 4)) := by
  decide

/-- C8: the `XGParamMap::Observer` forwards both of its callbacks
identically — `update()` performs exactly what `reset()` performs,
namely one invocation of the owning map's `notify_reset()`, so a
key-parameter value change and a key-parameter reset are
indistinguishable to the map's re-broadcast mechanism. -/
theorem c8_observer_forwards_identically :
    ∀ (α : Type) (notifyReset : α → α) (m : α),
      observerUpdate notifyReset m = observerReset notifyReset m ∧
        observerReset notifyReset m = notifyReset m ∧
        observerUpdate notifyReset m = notifyReset m :=
  fun _ _ _ => ⟨rfl, rfl, rfl⟩

/-- C7: a poll cycle that times out with no incoming event invokes the
aggregator's `flush()` from the capture loop itself: afterwards no
partial per-channel state remains, the completed-event queue has been
drained, and the notifications of the cycle are exactly the capture of
the flush-completed events. -/
theorem c7_timeout_flushes :
    ∀ (alsaPort : Int) (s : RpnState),
      threadCycle alsaPort s none = drainPendingAlsa alsaPort (rpnFlush s) ∧
        (threadCycle alsaPort s none).1.chans = [] ∧
        (threadCycle alsaPort s none).1.queue = [] ∧
        (threadCycle alsaPort s none).2 = drainAlsaGo alsaPort (rpnFlush s).queue := by
  intro alsaPort s
  refine ⟨rfl, ?_, ?_, rfl⟩
  · simp [threadCycle, drainPendingAlsa, rpnFlush]
  · simp [threadCycle, drainPendingAlsa]

/-- C9: the ALSA capture method drops every sequencer event whose
destination port is not the device's own port: no consumer notification
of any kind is emitted for it. -/
theorem c9_foreign_port_noop :
    ∀ (alsaPort : Int) (ev : SndSeqEvent),
      (ev.destPort : Int) ≠ alsaPort → captureAlsa alsaPort ev = [] := by
  intro alsaPort ev h
  simp [captureAlsa, h]

theorem c9_foreign_port_noop_witness :
    ((5 : Nat) : Int) ≠ (0 : Int) ∧
      captureAlsa 0
        { evtype := SndSeqEvType.sysex, destPort := 5, channel := 0,
          param := 0, value := 0, ext := [1, 2], tick := 0 } = [] :=
  ⟨by decide,
    c9_foreign_port_noop 0
      { evtype := SndSeqEvType.sysex, destPort := 5, channel := 0,
        param := 0, value := 0, ext := [1, 2], tick := 0 } (by decide)⟩

/-- C10: the RtMidi capture method is a no-op for every message shorter
than 3 bytes — neither a notification nor an aggregator flush happens —
while the input callback deliberately assembles and forwards exactly the
2-byte messages for status 0xc0 (Program Change) and 0xd0 (Channel
Pressure), which capture then silently discards. -/
theorem c10_short_message_noop :
    ∀ (s : RpnState) (m : List Nat) (b d : Nat),
      m.length < 3 →
      (b &&& 0xf0 = 0xc0 ∨ b &&& 0xf0 = 0xd0) →
      captureRt s m = (s, []) ∧
        midiInAssemble [b, d] [] = [[b, d]] ∧
        captureRt s [b, d] = (s, []) := by
  intro s m b d hm hb
  refine ⟨?_, ?_, ?_⟩
  · simp [captureRt, hm]
  · rcases hb with h | h <;>
      (rw [midiInAssemble, h]; norm_num; rw [midiInAssemble])
  · simp [captureRt]

theorem c10_short_message_noop_witness :
    captureRt rpnState0 [0xC0] = (rpnState0, []) ∧
      midiInAssemble [0xC5, 0x42] [] = [[0xC5, 0x42]] ∧
      captureRt rpnState0 [0xC5, 0x42] = (rpnState0, []) :=
  c10_short_message_noop rpnState0 [0xC0] 0xC5 0x42 (by decide) (by decide)

set_option maxHeartbeats 2000000 in
/-- C1: the claim says both capture paths report the MIDI channel (the
low 4 bits of the Control-Change status byte) in RPN/NRPN notifications.
The ALSA path does (second conjunct: channel 2 is delivered for a
channel-2 NRPN sequence), but the RtMidi path computes the channel as
`event.status & 0xf0` (qxgeditMidiDevice.cpp line 551) — the status TYPE
nibble — so the same channel-2 NRPN sequence is delivered with "channel"
0x30 (the NRPN type code, 48), which no 4-bit MIDI channel can equal. -/
theorem c1_rtmidi_channel_bug :
    (runRt rpnState0
        [[0xB2, 99, 2], [0xB2, 98, 8], [0xB2, 6, 4], [0xB2, 38, 3],
          [0x92, 0x40, 0x40]]).2
      = [MidiNotice.receivedNrpn 0x30 264 515] ∧
      (threadCycle 0 rpnState0
          (some [ccEvent 2 99 2, ccEvent 2 98 8, ccEvent 2 6 4, ccEvent 2 38 3])).2
        = [MidiNotice.receivedNrpn 2 264 515] ∧
      (0x30 : Nat) ≠ 2 := by
  decide

/-- C3 (counterexample): the claim says every non-Control-Change message
flushes the in-progress aggregation and is passed through, in both
paths.  In the RtMidi path this fails: after a partial NRPN aggregation
(param MSB on channel 2), a 3-byte Note-On message leaves the
aggregation state entirely unchanged — and distinct from the flushed
state, which would have discarded the partial entry — and produces no
consumer notification at all. -/
theorem c3_rtmidi_no_flush_counterexample :
    (captureRt (captureRt rpnState0 [0xB2, 99, 2]).1 [0x90, 64, 64]).1
        = (captureRt rpnState0 [0xB2, 99, 2]).1 ∧
      (captureRt rpnState0 [0xB2, 99, 2]).1.chans ≠ [] ∧
      (rpnFlush (captureRt rpnState0 [0xB2, 99, 2]).1).chans = [] ∧
      (captureRt (captureRt rpnState0 [0xB2, 99, 2]).1 [0x90, 64, 64]).2 = [] := by
  decide

/-- C3 (amended): in the ALSA path every non-Controller event flushes
the in-progress aggregation and is passed through unmodified to
`capture`; in the RtMidi path only a SysEx message flushes the
aggregation (the SysEx itself being delivered to consumers), while any
other non-Control-Change message leaves the per-channel aggregation
state untouched, is not passed through, and merely drains the
already-completed event queue. -/
theorem c3_amended_flush_behaviour :
    (∀ (s : RpnState) (ev : SndSeqEvent),
        ev.evtype ≠ SndSeqEvType.controller →
          inputRpnProcess s ev = (false, rpnFlush s)) ∧
      (∀ (alsaPort : Int) (s : RpnState) (ev : SndSeqEvent),
        ev.evtype ≠ SndSeqEvType.controller →
          (threadCycle alsaPort s (some [ev])).2
            = captureAlsa alsaPort ev ++ drainAlsaGo alsaPort (rpnFlush s).queue) ∧
      (∀ (s : RpnState) (m : List Nat),
        3 ≤ m.length → m.headD 0 &&& 0xf0 = 0xf0 →
          captureRt s m = (rpnFlush s, [MidiNotice.receivedSysex m])) ∧
      (∀ (s : RpnState) (m : List Nat),
        3 ≤ m.length → m.headD 0 &&& 0xf0 ≠ 0xf0 → m.headD 0 &&& 0xf0 ≠ 0xb0 →
          (captureRt s m).1.chans = s.chans ∧
            (captureRt s m).2 = drainRtGo s.queue) := by
  refine ⟨?_, ?_, ?_, ?_⟩
  · intro s ev h
    simp [inputRpnProcess, h]
  · intro alsaPort s ev h
    simp [threadCycle, processAlsaEvents, inputRpnProcess, h, drainPendingAlsa]
  · intro s m h3 hf
    have hlt : ¬(m.length < 3) := by omega
    have hf' : m.head?.getD 0 &&& 0xf0 = 0xf0 := by simpa using hf
    simp [captureRt, hlt, hf']
  · intro s m h3 hf hb
    have hlt : ¬(m.length < 3) := by omega
    have hf' : m.head?.getD 0 &&& 0xf0 ≠ 0xf0 := by simpa using hf
    have hb' : m.head?.getD 0 &&& 0xf0 ≠ 0xb0 := by simpa using hb
    simp [captureRt, hlt, hf', hb']

theorem c3_amended_flush_behaviour_witness :
    inputRpnProcess rpnState0
        { evtype := SndSeqEvType.sysex, destPort := 0, channel := 0,
          param := 0, value := 0, ext := [1], tick := 0 }
      = (false, rpnFlush rpnState0) ∧
      (threadCycle 0 rpnState0
          (some [{ evtype := SndSeqEvType.sysex, destPort := 0, channel := 0,
                   param := 0, value := 0, ext := [1], tick := 0 }])).2
        = captureAlsa 0
            { evtype := SndSeqEvType.sysex, destPort := 0, channel := 0,
              param := 0, value := 0, ext := [1], tick := 0 }
            ++ drainAlsaGo 0 (rpnFlush rpnState0).queue ∧
      captureRt rpnState0 [0xF0, 0x43, 0xF7]
        = (rpnFlush rpnState0, [MidiNotice.receivedSysex [0xF0, 0x43, 0xF7]]) ∧
      ((captureRt rpnState0 [0x90, 64, 64]).1.chans = rpnState0.chans ∧
        (captureRt rpnState0 [0x90, 64, 64]).2 = drainRtGo rpnState0.queue) :=
  ⟨c3_amended_flush_behaviour.1 _ _ (by decide),
    c3_amended_flush_behaviour.2.1 0 _ _ (by decide),
    c3_amended_flush_behaviour.2.2.1 _ _ (by decide) (by decide),
    c3_amended_flush_behaviour.2.2.2 _ _ (by decide) (by decide) (by decide)⟩

/-- C5: `connectDeviceList` reports success as a boolean derived from
the count of successful connections: it returns `true` iff at least one
subscription attempt — one per port matching an entry of the given list
— succeeded, and it returns `false` for an empty list having attempted
no connection at all; the embedding is a total function, so no failure
escapes as an exception. -/
theorem c5_connect_success_flag :
    ∀ (env : AlsaEnv) (bReadable : Bool) (list : List (List Nat)),
      ((connectDeviceList env bReadable list).1 = true ↔
        (list ≠ [] ∧ env.seqOpen = true ∧
          ∃ a, a ∈ connectAttempts env bReadable list ∧
            env.subscribeOk a.1 a.2 = true)) ∧
      connectDeviceList env bReadable [] = (false, []) := by
  intro env b list
  constructor
  · unfold connectDeviceList
    by_cases he : list.isEmpty = true
    · have hnil : list = [] := by
        cases list with
        | nil => rfl
        | cons x xs => simp at he
      subst hnil
      simp
    · have hne : list ≠ [] := by
        intro hnil
        subst hnil
        simp at he
      by_cases ho : env.seqOpen = true
      · simp [he, ho, hne, List.length_pos_iff_exists_mem, List.mem_filter]
      · simp [he, ho]
  · simp [connectDeviceList]

theorem c5_connect_success_flag_witness :
    ((connectDeviceList
        { seqOpen := true, selfClient := 10, selfPort := 0,
          clients := [⟨20, [65], [⟨0, [66], 33⟩]⟩],
          subscribeOk := fun _ _ => true } true
        [deviceItem ⟨20, [65], [⟨0, [66], 33⟩]⟩ ⟨0, [66], 33⟩]).1 = true ↔
      ([deviceItem ⟨20, [65], [⟨0, [66], 33⟩]⟩ ⟨0, [66], 33⟩] ≠ ([] : List (List Nat)) ∧
        (true : Bool) = true ∧
        ∃ a, a ∈ connectAttempts
            { seqOpen := true, selfClient := 10, selfPort := 0,
              clients := [⟨20, [65], [⟨0, [66], 33⟩]⟩],
              subscribeOk := fun _ _ => true } true
            [deviceItem ⟨20, [65], [⟨0, [66], 33⟩]⟩ ⟨0, [66], 33⟩] ∧
          (fun (_ : Int) (_ : Nat) => true) a.1 a.2 = true)) ∧
      connectDeviceList
        { seqOpen := true, selfClient := 10, selfPort := 0,
          clients := [⟨20, [65], [⟨0, [66], 33⟩]⟩],
          subscribeOk := fun _ _ => true } true ([] : List (List Nat))
        = (false, []) :=
  c5_connect_success_flag
    { seqOpen := true, selfClient := 10, selfPort := 0,
      clients := [⟨20, [65], [⟨0, [66], 33⟩]⟩],
      subscribeOk := fun _ _ => true } true
    [deviceItem ⟨20, [65], [⟨0, [66], 33⟩]⟩ ⟨0, [66], 33⟩]

/-- C6: every entry produced by the ALSA device listing has exactly the
form client-id ":" client-name " / " port-id ":" port-name (built by
`deviceItem`), and — whenever the external client/port names avoid the
separator characters space, slash and colon — the connect-by-name
matcher `itemMatches`, which parses with the same `" / "` separator and
the same field ordering, recognizes the produced entry. -/
theorem c6_listing_format_parse :
    ∀ (env : AlsaEnv) (bReadable : Bool) (item : List Nat),
      item ∈ deviceList env bReadable →
      ∃ c p, c ∈ env.clients ∧ p ∈ c.ports ∧ item = deviceItem c p ∧
        ((∀ x ∈ c.name, x ≠ 32 ∧ x ≠ 47 ∧ x ≠ 58) →
          (∀ x ∈ p.name, x ≠ 32 ∧ x ≠ 47 ∧ x ≠ 58) →
            itemMatches c.name p.name item = true) := by
  intro env b item h
  unfold deviceList at h
  by_cases ho : env.seqOpen = true
  · rw [if_pos ho, mem_catMap] at h
    obtain ⟨c, hc, hitem⟩ := h
    rw [List.mem_map] at hitem
    obtain ⟨p, hp, rfl⟩ := hitem
    refine ⟨c, p, (List.mem_filter.mp hc).1, (List.mem_filter.mp hp).1, rfl, ?_⟩
    intro hcn hpn
    exact itemMatches_deviceItem c p hcn hpn
  · rw [if_neg ho] at h
    simp at h

theorem c6_listing_format_parse_witness :
    deviceItem ⟨20, [65], [⟨0, [66], 33⟩]⟩ ⟨0, [66], 33⟩
        ∈ deviceList
            { seqOpen := true, selfClient := 10, selfPort := 0,
              clients := [⟨20, [65], [⟨0, [66], 33⟩]⟩],
              subscribeOk := fun _ _ => true } true ∧
      ∃ c p, c ∈ [(⟨20, [65], [⟨0, [66], 33⟩]⟩ : AlsaClientInfo)] ∧ p ∈ c.ports ∧
        deviceItem ⟨20, [65], [⟨0, [66], 33⟩]⟩ ⟨0, [66], 33⟩ = deviceItem c p ∧
        ((∀ x ∈ c.name, x ≠ 32 ∧ x ≠ 47 ∧ x ≠ 58) →
          (∀ x ∈ p.name, x ≠ 32 ∧ x ≠ 47 ∧ x ≠ 58) →
            itemMatches c.name p.name
              (deviceItem ⟨20, [65], [⟨0, [66], 33⟩]⟩ ⟨0, [66], 33⟩) = true) :=
  ⟨by decide,
    c6_listing_format_parse
      { seqOpen := true, selfClient := 10, selfPort := 0,
        clients := [⟨20, [65], [⟨0, [66], 33⟩]⟩],
        subscribeOk := fun _ _ => true } true
      (deviceItem ⟨20, [65], [⟨0, [66], 33⟩]⟩ ⟨0, [66], 33⟩) (by decide)⟩
